import Mathlib

/-!
Shallow embedding of the control core of the filament-extrusion workstation
(`src/server/src/machines/laser/{mod,new}.rs` and
`src/server/src/machines/winder2/diameter_controller.rs`).

Conventions of the embedding:
* `f64` diameters and tolerances in the laser module are modelled as `ℚ`
  (the module only stores, compares and divides them);
* `std::time::Instant` is modelled as `ℕ` (offset from the monotonic-clock
  epoch) and `std::time::Duration` as `ℕ`, both in seconds;
* `Instant - Duration` panics in Rust when the duration exceeds the
  instant's offset from the epoch (`checked_sub(...).expect(...)`); the
  panic is modelled by `Option`, `none` meaning the operation aborts;
* the `f64` arithmetic of the winder2 diameter controller is modelled over
  `ℝ` (it uses `sqrt` and `π`), with each quantity carried as the scalar
  the Rust code reads out of `uom` (mm, mm/s or m/s, rpm, cm³/s).
-/

/-- Mirrors `DiameterMeasurement` in `laser/mod.rs`: a timestamped diameter
reading (diameter in mm, timestamp an instant offset in seconds). -/
structure DiameterMeasurement where
  diameter : ℚ
  timestamp : ℕ
deriving DecidableEq, Repr

/-- Mirrors the panicking `Instant - Duration` subtraction used by
`DiameterTracker`: Rust's `Instant::sub` is
`checked_sub(duration).expect("overflow when subtracting duration from instant")`,
so the result is `none` (panic) exactly when the duration exceeds the
instant's offset from the monotonic-clock epoch. -/
def instant_sub (t : ℕ) (d : ℕ) : Option ℕ :=
  if d ≤ t then some (t - d) else none

/-- Mirrors `DiameterTracker` in `laser/mod.rs`: a `VecDeque` of
measurements (head = front) plus the timeframe duration in seconds. -/
structure DiameterTracker where
  measurements : List DiameterMeasurement
  timeframe_duration : ℕ
deriving DecidableEq, Repr

/-- Mirrors the eviction loop shared by `add_measurement` and
`set_timeframe`: `while front.timestamp < cutoff { pop_front } else break`. -/
def evictOld (cutoff : ℕ) : List DiameterMeasurement → List DiameterMeasurement
  | [] => []
  | front :: rest =>
      if front.timestamp < cutoff then evictOld cutoff rest else front :: rest

namespace DiameterTracker

/-- Mirrors `DiameterTracker::new(timeframe_minutes)`:
`Duration::from_secs(timeframe_minutes * 60)` and an empty deque. -/
def new (timeframe_minutes : ℕ) : DiameterTracker :=
  { measurements := [], timeframe_duration := timeframe_minutes * 60 }

/-- Mirrors `DiameterTracker::add_measurement`: push the new measurement to
the back, compute `cutoff = timestamp - timeframe_duration` (a panicking
`Instant - Duration`, hence the `Option`), then evict from the front while
`front.timestamp < cutoff`. -/
def add_measurement (tr : DiameterTracker) (diameter : ℚ) (timestamp : ℕ) :
    Option DiameterTracker :=
  (instant_sub timestamp tr.timeframe_duration).map fun cutoff =>
    { tr with
      measurements :=
        evictOld cutoff (tr.measurements ++ [{ diameter := diameter, timestamp := timestamp }]) }

/-- Mirrors `DiameterTracker::set_timeframe`: store the new duration, then,
if the deque is non-empty, evict from the front using
`cutoff = back.timestamp - timeframe_duration` (again a panicking
`Instant - Duration`). -/
def set_timeframe (tr : DiameterTracker) (timeframe_minutes : ℕ) :
    Option DiameterTracker :=
  match tr.measurements.getLast? with
  | none => some { tr with timeframe_duration := timeframe_minutes * 60 }
  | some latest =>
      (instant_sub latest.timestamp (timeframe_minutes * 60)).map fun cutoff =>
        { measurements := evictOld cutoff tr.measurements,
          timeframe_duration := timeframe_minutes * 60 }

end DiameterTracker

/-- Mirrors the laser snapshot consumed by `LaserMachine::update`
(`data.diameter`, `data.x_axis`, `data.y_axis`, read out in millimetres). -/
structure LaserData where
  diameter : ℚ
  x_axis : Option ℚ
  y_axis : Option ℚ
deriving DecidableEq, Repr

/-- Mirrors `LaserTarget` in `laser/mod.rs` (lengths in millimetres). -/
structure LaserTarget where
  diameter : ℚ
  lower_tolerance : ℚ
  higher_tolerance : ℚ
  min_max_timeframe_minutes : ℕ
deriving DecidableEq, Repr

/-- Mirrors `LaserState` in the emitted `StateEvent`. -/
structure LaserState where
  higher_tolerance : ℚ
  lower_tolerance : ℚ
  target_diameter : ℚ
  min_max_timeframe_minutes : ℕ
deriving DecidableEq, Repr

/-- Mirrors the emitted `StateEvent`. -/
structure StateEvent where
  is_default_state : Bool
  laser_state : LaserState
deriving DecidableEq, Repr

/-- The state of `LaserMachine` relevant to the claims (drivers and
namespace handles are external collaborators and are not part of the
state; an emitted event is returned instead of being published). -/
structure LaserMachine where
  diameter : ℚ
  x_diameter : Option ℚ
  y_diameter : Option ℚ
  roundness : Option ℚ
  diameter_tracker : DiameterTracker
  laser_target : LaserTarget
  emitted_default_state : Bool
deriving DecidableEq, Repr

/-- Mirrors `LaserMachine::calculate_roundness`, as a function of the two
cached axis diameters it reads (`self.x_diameter`, `self.y_diameter`). -/
def calculate_roundness (x_diameter y_diameter : Option ℚ) : Option ℚ :=
  match x_diameter, y_diameter with
  | some x, some y =>
      if 0 < x ∧ 0 < y then
        some (min x y / max x y)
      else if x = 0 ∧ y = 0 then
        some 0
      else
        none
  | _, _ => none

namespace LaserMachine

/-- Mirrors `LaserMachine::emit_state`: the event's `is_default_state` is
the negation of `mem::replace(&mut self.emitted_default_state, true)`; the
flag is set to `true`.  Returns the emitted event and the updated machine. -/
def emit_state (m : LaserMachine) : StateEvent × LaserMachine :=
  ({ is_default_state := !m.emitted_default_state,
     laser_state :=
       { higher_tolerance := m.laser_target.higher_tolerance,
         lower_tolerance := m.laser_target.lower_tolerance,
         target_diameter := m.laser_target.diameter,
         min_max_timeframe_minutes := m.laser_target.min_max_timeframe_minutes } },
   { m with emitted_default_state := true })

/-- Mirrors `LaserMachine::set_higher_tolerance`: store the value (no
validation in the source) and emit state. -/
def set_higher_tolerance (m : LaserMachine) (v : ℚ) : StateEvent × LaserMachine :=
  ({ m with laser_target := { m.laser_target with higher_tolerance := v } }).emit_state

/-- Mirrors `LaserMachine::set_lower_tolerance`: store the value (no
validation in the source) and emit state. -/
def set_lower_tolerance (m : LaserMachine) (v : ℚ) : StateEvent × LaserMachine :=
  ({ m with laser_target := { m.laser_target with lower_tolerance := v } }).emit_state

/-- Mirrors `LaserMachine::set_target_diameter`: store the value (no
validation in the source) and emit state. -/
def set_target_diameter (m : LaserMachine) (v : ℚ) : StateEvent × LaserMachine :=
  ({ m with laser_target := { m.laser_target with diameter := v } }).emit_state

/-- Mirrors `LaserMachine::update`: read the snapshot (absent mapped to a
0.0 diameter), overwrite the cached diameter, insert into the tracker iff
`diameter_mm > 0` (the insertion may panic, hence `Option`), overwrite the
cached x/y diameters from the snapshot and recompute roundness.  `now`
models the `Instant::now()` passed to the tracker. -/
def update (m : LaserMachine) (laser_data : Option LaserData) (now : ℕ) :
    Option LaserMachine :=
  let diameter_mm := (laser_data.map (·.diameter)).getD 0
  let m1 : LaserMachine := { m with diameter := diameter_mm }
  let m2? : Option LaserMachine :=
    if 0 < diameter_mm then
      (m1.diameter_tracker.add_measurement diameter_mm now).map fun tr =>
        { m1 with diameter_tracker := tr }
    else
      some m1
  m2?.map fun m2 =>
    let m3 : LaserMachine :=
      { m2 with
        x_diameter := laser_data.bind (·.x_axis),
        y_diameter := laser_data.bind (·.y_axis) }
    { m3 with roundness := calculate_roundness m3.x_diameter m3.y_diameter }

/-- Mirrors the struct literal built by `MachineNewTrait::new` in
`laser/new.rs` (before its trailing `emit_state()` call):
`emitted_default_state = false`, default target `1.75 mm ± 0.05 mm`,
30-minute min/max timeframe, empty tracker, zero diameter. -/
def initial_machine : LaserMachine :=
  { diameter := 0
    x_diameter := none
    y_diameter := none
    roundness := none
    diameter_tracker := DiameterTracker.new 30
    laser_target :=
      { diameter := 7/4
        lower_tolerance := 1/20
        higher_tolerance := 1/20
        min_max_timeframe_minutes := 30 }
    emitted_default_state := false }

/-- Mirrors the tail of `MachineNewTrait::new`: the freshly built machine
immediately emits its initial state. -/
def new : StateEvent × LaserMachine :=
  initial_machine.emit_state

/-- Iterate `emit_state` `n` times from a machine, keeping only the state. -/
def emitStateN (m : LaserMachine) : ℕ → LaserMachine
  | 0 => m
  | n + 1 => (emitStateN m n).emit_state.2

end LaserMachine

/-- Fold a list of `(diameter, timestamp)` insertions through
`DiameterTracker.add_measurement`, propagating a panic as `none`. -/
def insertAll (tr : DiameterTracker) : List (ℚ × ℕ) → Option DiameterTracker
  | [] => some tr
  | (d, t) :: rest =>
      match tr.add_measurement d t with
      | none => none
      | some tr1 => insertAll tr1 rest

/-! Winder2 diameter controller (`winder2/diameter_controller.rs`),
modelled over `ℝ`.  The scalar conventions follow the `uom` reads in the
source: diameters in mm, volume rates in cm³/s, screw speed in rpm,
`current_speed` in m/s (`get::<meter_per_second>()`), `filament_speed`
in mm/s (`get::<millimeter_per_second>()`). -/

/-- Mirrors `SCREW_DISPLACEMENT_PER_REV` (cm³/rev). -/
noncomputable def SCREW_DISPLACEMENT_PER_REV : ℝ := 0.5

/-- Mirrors `DiameterControlStrategy`. -/
inductive DiameterControlStrategy where
  | WinderOnly
  | ExtruderOnly
  | Balanced
  | SpeedPrioritized
deriving DecidableEq, Repr

/-- Mirrors `DiameterController::calculate_volume_rate_from_rpm`:
`rpm * SCREW_DISPLACEMENT_PER_REV / 60.0` (cm³/s from rpm). -/
noncomputable def calculate_volume_rate_from_rpm (screw_rpm : ℝ) : ℝ :=
  screw_rpm * SCREW_DISPLACEMENT_PER_REV / 60

/-- Mirrors `DiameterController::calculate_expected_diameter`: returns 0
for `filament_speed ≤ 0`; otherwise converts the speed from mm/s to cm/s,
takes `radius_cm = sqrt(Q / (π·v_cm))` and returns the diameter in mm
(`radius_cm * 2.0 * 10.0`). -/
noncomputable def calculate_expected_diameter (volume_rate filament_speed : ℝ) : ℝ :=
  if filament_speed ≤ 0 then 0
  else
    Real.sqrt (volume_rate / (Real.pi * (filament_speed / 10))) * 2 * 10

/-- Mirrors `DiameterController::calculate_required_volume_rate`:
`π · (d_mm/2/10)² · (v_mm/10)` (cm³/s). -/
noncomputable def calculate_required_volume_rate (target_diameter filament_speed : ℝ) : ℝ :=
  Real.pi * (target_diameter / 2 / 10) * (target_diameter / 2 / 10) * (filament_speed / 10)

/-- Mirrors `DiameterController::calculate_required_rpm`:
`Q * 60.0 / SCREW_DISPLACEMENT_PER_REV`. -/
noncomputable def calculate_required_rpm (target_volume_rate : ℝ) : ℝ :=
  target_volume_rate * 60 / SCREW_DISPLACEMENT_PER_REV

/-- Mirrors `DiameterController::calculate_winder_adjustment`:
`(-diameter_correction * 0.1) * current_speed_m_per_s`. -/
noncomputable def calculate_winder_adjustment (diameter_correction current_speed : ℝ) : ℝ :=
  -diameter_correction * 0.1 * current_speed

/-- Mirrors `DiameterController::calculate_extruder_adjustment`:
`volume_correction * (60.0 / SCREW_DISPLACEMENT_PER_REV)`. -/
noncomputable def calculate_extruder_adjustment (volume_correction : ℝ) : ℝ :=
  volume_correction * (60 / SCREW_DISPLACEMENT_PER_REV)

/-- Mirrors `DiameterController::apply_filter`: the source applies
`new_value * alpha` only ("Simplified for this example" — no previous
output is stored). -/
noncomputable def apply_filter (new_value alpha : ℝ) : ℝ :=
  new_value * alpha

/-- Modelled from the spec: the first-order low-pass the spec describes,
`y := α·x + (1−α)·y_prev` with the previous output retained.  Present only
to compare the source's `apply_filter` against the spec's wording. -/
noncomputable def ema_filter (alpha x y_prev : ℝ) : ℝ :=
  alpha * x + (1 - alpha) * y_prev

/-- The `u_d` weight each strategy arm of `DiameterController::update`
applies to the diameter-PID output before `calculate_winder_adjustment`. -/
noncomputable def winder_weight : DiameterControlStrategy → ℝ
  | .WinderOnly => 1
  | .ExtruderOnly => 0
  | .Balanced => 0.6
  | .SpeedPrioritized => 0.2

/-- The `u_Q` weight each strategy arm of `DiameterController::update`
applies to the volume-PID output before `calculate_extruder_adjustment`. -/
noncomputable def extruder_weight : DiameterControlStrategy → ℝ
  | .WinderOnly => 0
  | .ExtruderOnly => 1
  | .Balanced => 0.4
  | .SpeedPrioritized => 0.8

/-- Mirrors the strategy-mixing and filtering tail of
`DiameterController::update` (lines 267–298), parameterised by the two PID
outputs `diameter_correction` (`u_d`) and `volume_correction` (`u_Q`) and
the current filament speed in m/s.  Returns
`(winder_speed_adjustment, extruder_rpm_adjustment)` as emitted in the
output record, i.e. after `apply_filter` with `speed_filter_alpha = 0.1`
and `volume_filter_alpha = 0.15` (the values set in `new`). -/
noncomputable def update_adjustments (strategy : DiameterControlStrategy)
    (diameter_correction volume_correction current_filament_speed : ℝ) : ℝ × ℝ :=
  let pair : ℝ × ℝ :=
    match strategy with
    | .WinderOnly =>
        (calculate_winder_adjustment diameter_correction current_filament_speed, 0)
    | .ExtruderOnly =>
        (0, calculate_extruder_adjustment volume_correction)
    | .Balanced =>
        (calculate_winder_adjustment (diameter_correction * 0.6) current_filament_speed,
         calculate_extruder_adjustment (volume_correction * 0.4))
    | .SpeedPrioritized =>
        (calculate_winder_adjustment (diameter_correction * 0.2) current_filament_speed,
         calculate_extruder_adjustment (volume_correction * 0.8))
  (apply_filter pair.1 0.1, apply_filter pair.2 0.15)

/-! Helper lemmas about the eviction loop. -/

theorem evictOld_suffix (cutoff : ℕ) (l : List DiameterMeasurement) :
    evictOld cutoff l <:+ l := by
  induction l with
  | nil => simp [evictOld]
  | cons a l ih =>
      by_cases h : a.timestamp < cutoff
      · simp only [evictOld, if_pos h]
        exact ih.trans (List.suffix_cons a l)
      · simp only [evictOld, if_neg h]
        exact List.suffix_rfl

theorem evictOld_mem_le (cutoff : ℕ) (l : List DiameterMeasurement)
    (hpw : l.Pairwise (fun a b => a.timestamp ≤ b.timestamp)) :
    ∀ s ∈ evictOld cutoff l, cutoff ≤ s.timestamp := by
  induction l with
  | nil => simp [evictOld]
  | cons a l ih =>
      rw [List.pairwise_cons] at hpw
      by_cases h : a.timestamp < cutoff
      · simp only [evictOld, if_pos h]
        exact ih hpw.2
      · simp only [evictOld, if_neg h]
        intro s hs
        rcases List.mem_cons.mp hs with rfl | hs
        · exact Nat.le_of_not_lt h
        · exact le_trans (Nat.le_of_not_lt h) (hpw.1 s hs)

theorem evictOld_append_singleton (cutoff : ℕ) (l : List DiameterMeasurement)
    (x : DiameterMeasurement) (hx : ¬ x.timestamp < cutoff) :
    evictOld cutoff (l ++ [x]) = evictOld cutoff l ++ [x] := by
  induction l with
  | nil => simp [evictOld, hx]
  | cons a l ih =>
      by_cases h : a.timestamp < cutoff
      · simp only [List.cons_append, evictOld, if_pos h]
        exact ih
      · simp only [List.cons_append, evictOld, if_neg h]
        rfl

theorem add_measurement_eq_some {tr : DiameterTracker} {d : ℚ} {t : ℕ}
    {tr' : DiameterTracker} (h : tr.add_measurement d t = some tr') :
    tr.timeframe_duration ≤ t ∧
    tr' = { tr with
      measurements :=
        evictOld (t - tr.timeframe_duration)
          (tr.measurements ++ [{ diameter := d, timestamp := t }]) } := by
  unfold DiameterTracker.add_measurement instant_sub at h
  by_cases hdt : tr.timeframe_duration ≤ t
  · rw [if_pos hdt] at h
    simp only [Option.map_some'] at h
    exact ⟨hdt, (Option.some.inj h).symm⟩
  · rw [if_neg hdt] at h
    simp at h

/-- C6: `add_measurement` and `set_timeframe` compute the eviction cutoff
by subtracting the window duration from an instant (the new sample's
timestamp, resp. the newest retained sample's timestamp); the subtraction
panics (`none`) exactly when the window duration exceeds that instant's
offset from the monotonic-clock epoch, so under the precondition that the
reference timestamp is at least one window duration after the epoch the
panic branch is unreachable and both operations are total. -/
theorem c6_cutoff_subtraction_totality (tr : DiameterTracker) (d : ℚ) (t m : ℕ) :
    (tr.add_measurement d t = none ↔ t < tr.timeframe_duration) ∧
    (tr.set_timeframe m = none ↔
      ∃ latest ∈ tr.measurements.getLast?, latest.timestamp < m * 60) := by
  constructor
  · unfold DiameterTracker.add_measurement instant_sub
    by_cases hdt : tr.timeframe_duration ≤ t
    · simp [if_pos hdt, Nat.not_lt.mpr hdt]
    · simp [if_neg hdt, Nat.lt_of_not_le hdt]
  · unfold DiameterTracker.set_timeframe instant_sub
    cases hml : tr.measurements.getLast? with
    | none => simp
    | some latest =>
        by_cases hlt : m * 60 ≤ latest.timestamp
        · simp [if_pos hlt, Nat.not_lt.mpr hlt]
        · simp [if_neg hlt, Nat.lt_of_not_le hlt]

/-- C3 (amended): provided the insertion timestamps are non-decreasing
(the retained samples are sorted and the new timestamp is at least every
retained one) and the insert succeeds, every sample retained after an
insert at time `t` satisfies `t − s.t ≤ window`, the retained sequence is
a suffix of the old sequence with the new sample appended (so retention
order matches insertion order), and sortedness is preserved, making the
hypotheses self-sustaining across any monotone insertion sequence. -/
theorem c3_window_invariant (tr : DiameterTracker) (d : ℚ) (t : ℕ)
    (tr' : DiameterTracker)
    (hpw : tr.measurements.Pairwise (fun a b => a.timestamp ≤ b.timestamp))
    (hle : ∀ s ∈ tr.measurements, s.timestamp ≤ t)
    (h : tr.add_measurement d t = some tr') :
    (∀ s ∈ tr'.measurements, t - s.timestamp ≤ tr.timeframe_duration) ∧
    tr'.measurements <:+ tr.measurements ++ [{ diameter := d, timestamp := t }] ∧
    tr'.measurements.Pairwise (fun a b => a.timestamp ≤ b.timestamp) := by
  obtain ⟨hdt, rfl⟩ := add_measurement_eq_some h
  have hpw' : (tr.measurements ++ [({ diameter := d, timestamp := t } : DiameterMeasurement)]).Pairwise
      (fun a b => a.timestamp ≤ b.timestamp) := by
    refine List.pairwise_append.mpr ⟨hpw, List.pairwise_singleton _ _, ?_⟩
    intro a ha b hb
    rw [List.mem_singleton] at hb
    subst hb
    exact hle a ha
  refine ⟨?_, evictOld_suffix _ _, hpw'.sublist (evictOld_suffix _ _).sublist⟩
  intro s hs
  have hcs := evictOld_mem_le _ _ hpw' s hs
  omega

/-- C3 counterexample: as stated (for every sequence of insertions) the
claim is false.  With `window = 10`, inserting at times 100, 50, 61 keeps
all three samples, and the sample at time 50 violates `61 − 50 ≤ 10`. -/
theorem c3_counterexample :
    insertAll { measurements := [], timeframe_duration := 10 }
        [(1, 100), (1, 50), (1, 61)]
      = some { measurements :=
                 [{ diameter := 1, timestamp := 100 },
                  { diameter := 1, timestamp := 50 },
                  { diameter := 1, timestamp := 61 }],
               timeframe_duration := 10 } ∧
    10 < 61 - 50 := by decide

/-- C3 witness: a concrete monotone insert through `c3_window_invariant`. -/
theorem c3_witness :
    ({ measurements := [{ diameter := 2, timestamp := 100 }],
       timeframe_duration := 10 } : DiameterTracker).add_measurement 1 105
      = some { measurements :=
                 [{ diameter := 2, timestamp := 100 },
                  { diameter := 1, timestamp := 105 }],
               timeframe_duration := 10 } ∧
    (105 : ℕ) - 100 ≤ 10 ∧ (105 : ℕ) - 105 ≤ 10 := by
  have h := c3_window_invariant
    { measurements := [{ diameter := 2, timestamp := 100 }], timeframe_duration := 10 }
    1 105
    { measurements :=
        [{ diameter := 2, timestamp := 100 }, { diameter := 1, timestamp := 105 }],
      timeframe_duration := 10 }
    (by decide) (by decide) (by decide)
  exact ⟨by decide,
    h.1 { diameter := 2, timestamp := 100 } (by decide),
    h.1 { diameter := 1, timestamp := 105 } (by decide)⟩

/-- C4 (amended): `add_measurement` never rejects or discards an
out-of-order sample — there is no `OutOfOrder` path at all.  Every insert
that does not panic appends the new sample, and the new sample is always
still at the back after eviction, so the retained sequence can become
non-monotone. -/
theorem c4_inserted_sample_retained (tr : DiameterTracker) (d : ℚ) (t : ℕ)
    (tr' : DiameterTracker) (h : tr.add_measurement d t = some tr') :
    tr'.measurements.getLast? = some { diameter := d, timestamp := t } := by
  obtain ⟨hdt, rfl⟩ := add_measurement_eq_some h
  have hx : ¬ ({ diameter := d, timestamp := t } : DiameterMeasurement).timestamp
      < t - tr.timeframe_duration := Nat.not_lt.mpr (Nat.sub_le _ _)
  simp only [evictOld_append_singleton _ _ _ hx]
  exact List.getLast?_concat _

/-- C4 counterexample: inserting a sample at time 50 after one at time 100
(window 10) retains the out-of-order sample, and the retained timestamp
sequence `[100, 50]` is not non-decreasing — the claim as stated is false. -/
theorem c4_counterexample :
    insertAll { measurements := [], timeframe_duration := 10 } [(1, 100), (2, 50)]
      = some { measurements :=
                 [{ diameter := 1, timestamp := 100 },
                  { diameter := 2, timestamp := 50 }],
               timeframe_duration := 10 } ∧
    (50 : ℕ) < 100 := by decide

/-- C4 witness: a concrete out-of-order insert through
`c4_inserted_sample_retained`. -/
theorem c4_witness :
    ({ measurements :=
         [{ diameter := 1, timestamp := 100 }, { diameter := 2, timestamp := 50 }],
       timeframe_duration := 10 } : DiameterTracker).measurements.getLast?
      = some { diameter := 2, timestamp := 50 } :=
  c4_inserted_sample_retained
    { measurements := [{ diameter := 1, timestamp := 100 }], timeframe_duration := 10 }
    2 50
    { measurements :=
        [{ diameter := 1, timestamp := 100 }, { diameter := 2, timestamp := 50 }],
      timeframe_duration := 10 }
    (by decide)

/-- C2 (amended): on an absent snapshot or a zero diameter reading,
`LaserMachine::update` does skip the sliding-window insertion, but it does
not keep the cached live values: it overwrites the cached diameter with 0,
replaces the cached x/y diameters with the snapshot's axis values (absent
when the snapshot is absent) and recomputes roundness from them. -/
theorem c2_dropout_overwrites (m : LaserMachine) (laser_data : Option LaserData)
    (now : ℕ) (h : ∀ dd ∈ laser_data, dd.diameter = 0) :
    m.update laser_data now =
      some { m with
        diameter := 0,
        x_diameter := laser_data.bind (·.x_axis),
        y_diameter := laser_data.bind (·.y_axis),
        roundness :=
          calculate_roundness (laser_data.bind (·.x_axis)) (laser_data.bind (·.y_axis)) } := by
  cases laser_data with
  | none => simp [LaserMachine.update]
  | some dd =>
      have hd : dd.diameter = 0 := h dd rfl
      simp [LaserMachine.update, hd]

/-- C2 counterexample: with an absent snapshot, the cached diameter is not
kept — a machine whose cached diameter is 2 mm ends the tick with a cached
diameter of 0. -/
theorem c2_counterexample :
    ((({ LaserMachine.initial_machine with diameter := 2 }).update none 200).map
        (fun mm : LaserMachine => mm.diameter)) = some 0 ∧ (2 : ℚ) ≠ 0 := by decide

/-- C2 witness: a concrete zero-diameter snapshot through
`c2_dropout_overwrites`. -/
theorem c2_witness :
    LaserMachine.initial_machine.update
        (some { diameter := 0, x_axis := some 2, y_axis := some 2 }) 5
      = some { LaserMachine.initial_machine with
          diameter := 0,
          x_diameter := some 2,
          y_diameter := some 2,
          roundness := calculate_roundness (some 2) (some 2) } :=
  c2_dropout_overwrites _ _ _ (by decide)

/-- C7 (amended): roundness is `min/max` of the axis diameters when both
are positive, 0 when both are exactly 0, absent otherwise; whenever
present it lies in [0, 1]; it is present only if both axis diameters are
present, and for two present values it is present iff both are positive or
both are zero (so presence of both axes alone does not suffice). -/
theorem c7_roundness (x y : ℚ) :
    (0 < x → 0 < y →
      calculate_roundness (some x) (some y) = some (min x y / max x y)) ∧
    calculate_roundness (some 0) (some 0) = some 0 ∧
    (∀ a b : Option ℚ, ∀ r ∈ calculate_roundness a b, 0 ≤ r ∧ r ≤ 1) ∧
    (∀ a b : Option ℚ, (calculate_roundness a b).isSome → a.isSome ∧ b.isSome) ∧
    ((calculate_roundness (some x) (some y)).isSome ↔
      (0 < x ∧ 0 < y) ∨ (x = 0 ∧ y = 0)) := by
  refine ⟨?_, ?_, ?_, ?_, ?_⟩
  · intro hx hy
    simp [calculate_roundness, hx, hy]
  · simp [calculate_roundness]
  · intro a b r hr
    cases a with
    | none => simp [calculate_roundness] at hr
    | some xa =>
        cases b with
        | none => simp [calculate_roundness] at hr
        | some yb =>
            by_cases hpos : 0 < xa ∧ 0 < yb
            · simp only [calculate_roundness, if_pos hpos, Option.mem_def,
                Option.some.injEq] at hr
              subst hr
              constructor
              · exact le_of_lt (div_pos (lt_min hpos.1 hpos.2)
                  (lt_max_of_lt_left hpos.1))
              · exact div_le_one_of_le₀ (min_le_max)
                  (le_of_lt (lt_max_of_lt_left hpos.1))
            · by_cases hzero : xa = 0 ∧ yb = 0
              · simp only [calculate_roundness, if_neg hpos, if_pos hzero,
                  Option.mem_def, Option.some.injEq] at hr
                subst hr
                norm_num
              · simp [calculate_roundness, if_neg hpos, if_neg hzero] at hr
  · intro a b hs
    cases a with
    | none => simp [calculate_roundness] at hs
    | some xa =>
        cases b with
        | none => simp [calculate_roundness] at hs
        | some yb => simp
  · by_cases hpos : 0 < x ∧ 0 < y
    · simp [calculate_roundness, hpos]
    · by_cases hzero : x = 0 ∧ y = 0
      · simp [calculate_roundness, hpos, hzero]
      · simp [calculate_roundness, hpos, hzero]

/-- C7 counterexample: with `d_x = 0` and `d_y = 5` both present, roundness
is absent — "present iff both `d_x` and `d_y` are present" is false. -/
theorem c7_counterexample :
    calculate_roundness (some 0) (some 5) = none ∧
    (some (0 : ℚ)).isSome = true ∧ (some (5 : ℚ)).isSome = true := by decide

/-- C7 witness: a concrete pair of positive diameters through
`c7_roundness`. -/
theorem c7_witness : calculate_roundness (some 2) (some 1) = some (1/2) := by
  have h := (c7_roundness 2 1).1 (by norm_num) (by norm_num)
  norm_num [min_def, max_def] at h
  exact h

/-- C8: `is_default_state` is true exactly once over the machine's
lifetime — on the first `emit_state` call after construction of the
machine state (the call `new` itself performs) — and false on every
emission thereafter. -/
theorem c8_default_state_once (n : ℕ) :
    LaserMachine.new.1.is_default_state = true ∧
    (((LaserMachine.initial_machine.emitStateN n).emit_state.1.is_default_state = true)
      ↔ n = 0) := by
  refine ⟨rfl, ?_⟩
  cases n with
  | zero => simp [LaserMachine.emitStateN, LaserMachine.emit_state,
      LaserMachine.initial_machine]
  | succ n =>
      have hf : (LaserMachine.initial_machine.emitStateN (n + 1)).emitted_default_state
          = true := rfl
      simp [LaserMachine.emit_state, hf]

/-- C9 (amended): the tolerance and target-diameter setters perform no
validation: any value, including a negative one, is stored into
`LaserTarget` and a state event carrying it is emitted. -/
theorem c9_setters_unvalidated (m : LaserMachine) (v : ℚ) :
    (m.set_higher_tolerance v).2.laser_target.higher_tolerance = v ∧
    (m.set_higher_tolerance v).1.laser_state.higher_tolerance = v ∧
    (m.set_lower_tolerance v).2.laser_target.lower_tolerance = v ∧
    (m.set_lower_tolerance v).1.laser_state.lower_tolerance = v ∧
    (m.set_target_diameter v).2.laser_target.diameter = v ∧
    (m.set_target_diameter v).1.laser_state.target_diameter = v :=
  ⟨rfl, rfl, rfl, rfl, rfl, rfl⟩

/-- C9 counterexample: `set_higher_tolerance(−1)` is not rejected — the
stored tolerance changes from the default to −1 and a state event carrying
−1 is emitted. -/
theorem c9_counterexample :
    (LaserMachine.initial_machine.set_higher_tolerance (-1)).2.laser_target.higher_tolerance
        = -1 ∧
    (LaserMachine.initial_machine.set_higher_tolerance (-1)).1.laser_state.higher_tolerance
        = -1 ∧
    (-1 : ℚ) < 0 := by
  refine ⟨rfl, rfl, by norm_num⟩

/-- C1: on an enabled tick, the puller adjustment is
`Δv = −u_d · 0.1 · v_line` and the extruder adjustment
`Δω = u_Q · 60 / D_screw`; the strategy weights applied to `(u_d, u_Q)`
are WinderOnly `(1, 0)`, ExtruderOnly `(0, 1)`, Balanced `(0.6, 0.4)`,
SpeedPrioritized `(0.2, 0.8)`; hence with positive `u_d`, `u_Q` (such as
`+1`) the Balanced output has `Δv < 0` and `Δω > 0`, WinderOnly has
`Δω = 0` and ExtruderOnly `Δv = 0`. -/
theorem c1_strategy_mixing (u_d u_Q v : ℝ) (hv : 0 < v) :
    calculate_winder_adjustment u_d v = -u_d * 0.1 * v ∧
    calculate_extruder_adjustment u_Q = u_Q * 60 / SCREW_DISPLACEMENT_PER_REV ∧
    (0 < u_d → calculate_winder_adjustment u_d v < 0) ∧
    (∀ s, update_adjustments s u_d u_Q v =
      (apply_filter (calculate_winder_adjustment (winder_weight s * u_d) v) 0.1,
       apply_filter (calculate_extruder_adjustment (extruder_weight s * u_Q)) 0.15)) ∧
    (0 < u_d → 0 < u_Q →
      (update_adjustments .Balanced u_d u_Q v).1 < 0 ∧
      0 < (update_adjustments .Balanced u_d u_Q v).2) ∧
    (update_adjustments .WinderOnly u_d u_Q v).2 = 0 ∧
    (update_adjustments .ExtruderOnly u_d u_Q v).1 = 0 := by
  refine ⟨rfl, ?_, ?_, ?_, ?_, ?_, ?_⟩
  · simp only [calculate_extruder_adjustment]
    ring
  · intro hd
    simp only [calculate_winder_adjustment]
    nlinarith [mul_pos hd hv]
  · intro s
    cases s <;>
      simp only [update_adjustments, winder_weight, extruder_weight,
        calculate_winder_adjustment, calculate_extruder_adjustment, apply_filter,
        Prod.mk.injEq] <;>
      constructor <;> ring
  · intro hd hq
    constructor
    · simp only [update_adjustments, calculate_winder_adjustment, apply_filter]
      nlinarith [mul_pos hd hv]
    · simp only [update_adjustments, calculate_extruder_adjustment, apply_filter,
        SCREW_DISPLACEMENT_PER_REV]
      nlinarith [hq]
  · simp [update_adjustments, apply_filter]
  · simp [update_adjustments, apply_filter]

/-- C1 witness: with `u_d = u_Q = +1` and `v_line = 1 m/s`, the Balanced
output slows the puller and pushes the extruder. -/
theorem c1_witness :
    (update_adjustments .Balanced 1 1 1).1 < 0 ∧
    0 < (update_adjustments .Balanced 1 1 1).2 := by
  have h := c1_strategy_mixing 1 1 1 (by norm_num)
  exact h.2.2.2.2.1 (by norm_num) (by norm_num)

/-- C5: the volumetric model: `Q = ω · D_screw / 60` with
`D_screw = 0.5 cm³/rev`; `calculate_required_rpm` is its exact inverse
(so `Q = 2.0 cm³/s` yields 240 rpm, within ±0.1); and
`calculate_expected_diameter` returns `2·√(Q/(π·v_cm))` (in mm, the line
speed converted from mm/s to cm/s and the cm diameter back to mm),
returning 0 whenever `v ≤ 0`. -/
theorem c5_volumetric_model (rpm q v : ℝ) :
    calculate_volume_rate_from_rpm rpm = rpm * SCREW_DISPLACEMENT_PER_REV / 60 ∧
    SCREW_DISPLACEMENT_PER_REV = 0.5 ∧
    calculate_required_rpm (calculate_volume_rate_from_rpm rpm) = rpm ∧
    |calculate_required_rpm 2 - 240| ≤ 0.1 ∧
    (v ≤ 0 → calculate_expected_diameter q v = 0) ∧
    (0 < v → calculate_expected_diameter q v
      = 2 * Real.sqrt (q / (Real.pi * (v / 10))) * 10) := by
  refine ⟨rfl, rfl, ?_, ?_, ?_, ?_⟩
  · simp only [calculate_required_rpm, calculate_volume_rate_from_rpm,
      SCREW_DISPLACEMENT_PER_REV]
    norm_num
  · simp only [calculate_required_rpm, SCREW_DISPLACEMENT_PER_REV]
    norm_num
  · intro hv
    simp [calculate_expected_diameter, hv]
  · intro hv
    rw [calculate_expected_diameter, if_neg (not_le.mpr hv)]
    ring

/-- C5 witness: the zero guard at a concrete negative speed and the exact
240 rpm instance through `c5_volumetric_model`. -/
theorem c5_witness :
    calculate_expected_diameter 4 (-1) = 0 ∧
    |calculate_required_rpm 2 - 240| ≤ 0.1 := by
  have h := c5_volumetric_model 100 4 (-1)
  exact ⟨h.2.2.2.2.1 (by norm_num), h.2.2.2.1⟩

/-- C10 (amended): each strategy-mixed adjustment is only scaled by its
coefficient before emission — `apply_filter x α = x · α`, an EMA whose
previous-output term is always 0 (no previous output is retained) — with
`α_v = 0.1` on the puller output and `α_Q = 0.15` on the extruder output. -/
theorem c10_filter_is_scaling (s : DiameterControlStrategy) (u_d u_Q v x a : ℝ) :
    apply_filter x a = x * a ∧
    apply_filter x a = ema_filter a x 0 ∧
    (update_adjustments s u_d u_Q v).1
      = calculate_winder_adjustment (winder_weight s * u_d) v * 0.1 ∧
    (update_adjustments s u_d u_Q v).2
      = calculate_extruder_adjustment (extruder_weight s * u_Q) * 0.15 := by
  refine ⟨rfl, ?_, ?_, ?_⟩
  · simp only [apply_filter, ema_filter]
    ring
  · cases s <;>
      simp only [update_adjustments, winder_weight, extruder_weight,
        calculate_winder_adjustment, calculate_extruder_adjustment, apply_filter] <;>
      ring
  · cases s <;>
      simp only [update_adjustments, winder_weight, extruder_weight,
        calculate_winder_adjustment, calculate_extruder_adjustment, apply_filter] <;>
      ring

/-- C10 counterexample: the filter retains no previous output.  After a
WinderOnly tick whose filtered puller output is 0.1, a tick with a zero
adjustment emits 0, whereas the claimed EMA `y := α·x + (1−α)·y_prev`
would emit 0.09. -/
theorem c10_counterexample :
    (update_adjustments .WinderOnly 0 0 1).1 = 0 ∧
    ema_filter 0.1 0 ((update_adjustments .WinderOnly (-10) 0 1).1) = 0.09 ∧
    (0 : ℝ) ≠ 0.09 := by
  norm_num [update_adjustments, apply_filter, calculate_winder_adjustment, ema_filter]
